import Mathlib

/-!
Shallow embedding of the borrowbuddy-exchange client pages
(BookResource, Dashboard, Resources, AddResource) and the relevant
parts of the SQL schema (the bookings.status CHECK constraint).

Conventions of the embedding:
* JS strings are Lean `String`; identifiers (uuids) are strings.
* Timestamps are integers (milliseconds since the epoch) — the value
  `new Date(s).getTime()` of a set datetime-local input; an empty
  (unset) input is `none`.
* SQL NUMERIC values (price, total_price) are rationals.
* A component's event handler becomes a pure function from its inputs
  (current user, loaded resource, form state) to the action it performs
  (the row it inserts, the local state it produces, or nothing).
-/

/-- Row of the `resources` table (migration lines 15-29). Nullable
columns are `Option`. -/
structure ResourceRow where
  id : String
  owner_id : String
  title : String
  description : Option String
  category : String
  price : ℚ
  location : String
  image_url : Option String
  availability_start : Int
  availability_end : Int
  is_available : Bool
  created_at : Int
  deriving DecidableEq, Repr

/-- The authenticated identity supplied by the auth context. -/
structure User where
  id : String
  deriving DecidableEq, Repr

/-- Booking record as held by the Dashboard component (part_000 lines
273-281): a `bookings` row joined with its resource. -/
structure Booking where
  id : String
  start_time : Int
  end_time : Int
  total_price : ℚ
  status : String
  resource_id : String
  resources : ResourceRow
  deriving DecidableEq, Repr

/-- The status values admitted by the schema CHECK constraint on
`bookings.status` (migration line 40). -/
def allowedBookingStatuses : List String :=
  ["pending", "confirmed", "cancelled", "completed"]

/-- Ceiling of the exact quotient a / b for b > 0, as `Math.ceil` on
the exact value; `/` on `Int` is floor division. -/
def ceilDiv (a b : Int) : Int := -((-a) / b)

namespace BookResource

/-- Milliseconds per day: the divisor `1000 * 60 * 60 * 24` of
calculateTotalPrice (part_000 line 76). -/
def msPerDay : Int := 1000 * 60 * 60 * 24

/-- calculateTotalPrice (part_000 lines 72-78): returns 0 when either
date input is unset or no resource is loaded; otherwise
`Math.max(1, Math.ceil((end - start) / msPerDay)) * resource.price`. -/
def calculateTotalPrice (resource : Option ResourceRow)
    (startDate endDate : Option Int) : ℚ :=
  match startDate, endDate, resource with
  | some s, some e, some r =>
      let days : Int := ceilDiv (e - s) msPerDay
      ((max 1 days : Int) : ℚ) * r.price
  | _, _, _ => 0

/-- The row handleBooking inserts into `bookings` (part_000 lines
97-108). -/
structure BookingInsert where
  resource_id : String
  renter_id : String
  owner_id : String
  start_time : Option Int
  end_time : Option Int
  payment_method : String
  total_price : ℚ
  status : String
  deriving DecidableEq, Repr

/-- handleBooking (part_000 lines 80-127): returns the booking row it
inserts, or `none` when it returns without issuing an insert (missing
user or resource, or the current user owns the resource). -/
def handleBooking (user : Option User) (resource : Option ResourceRow)
    (startDate endDate : Option Int) (paymentMethod : String) :
    Option BookingInsert :=
  match user, resource with
  | some u, some r =>
      if r.owner_id = u.id then none
      else some
        { resource_id := r.id
          renter_id := u.id
          owner_id := r.owner_id
          start_time := startDate
          end_time := endDate
          payment_method := paymentMethod
          total_price := calculateTotalPrice (some r) startDate endDate
          status := "pending" }
  | _, _ => none

end BookResource

/-- needle-at-front test on character lists: `charsStartWith hay n` is
true when `n` is an initial segment of `hay`. -/
def charsStartWith : List Char → List Char → Bool
  | _, [] => true
  | [], _ :: _ => false
  | a :: as, b :: bs => a == b && charsStartWith as bs

/-- substring test on character lists, the semantics of JS
`String.prototype.includes`. -/
def charsContain : List Char → List Char → Bool
  | [], needle => needle.isEmpty
  | a :: as, needle => charsStartWith (a :: as) needle || charsContain as needle

/-- `strIncludes hay needle` models `hay.includes(needle)`. -/
def strIncludes (hay needle : String) : Bool :=
  charsContain hay.toList needle.toList

namespace Resources

/-- Search predicate of filteredResources (Resources.tsx lines 61-63):
case-insensitive substring match of the search term against title,
description (absent description matches nothing) or location. -/
def matchesSearch (r : ResourceRow) (searchTerm : String) : Bool :=
  strIncludes r.title.toLower searchTerm.toLower
  || (match r.description with
      | some d => strIncludes d.toLower searchTerm.toLower
      | none => false)
  || strIncludes r.location.toLower searchTerm.toLower

/-- Category predicate of filteredResources (Resources.tsx line 64):
the empty string is the unselected category. -/
def matchesCategory (r : ResourceRow) (selectedCategory : String) : Bool :=
  (selectedCategory = "") || (r.category = selectedCategory)

/-- filteredResources (Resources.tsx lines 60-66). -/
def filteredResources (resources : List ResourceRow)
    (searchTerm selectedCategory : String) : List ResourceRow :=
  resources.filter (fun r => matchesSearch r searchTerm && matchesCategory r selectedCategory)

/-- fetchResources (Resources.tsx lines 38-58): the backend query
`select * where is_available = true order by created_at desc`, modelled
over the full table contents. -/
def fetchResources (db : List ResourceRow) : List ResourceRow :=
  (db.filter (fun r => r.is_available)).mergeSort
    (fun a b => decide (b.created_at ≤ a.created_at))

end Resources

namespace AddResource

/-- The AddResource form state (AddResource.tsx lines 17-26): every
field a string. -/
structure ResourceForm where
  title : String
  description : String
  category : String
  price : String
  location : String
  image_url : String
  availability_start : String
  availability_end : String
  deriving DecidableEq, Repr

/-- Exact decimal parse of a nonnegative decimal numeral
(digits, optionally followed by a point and digits). -/
def parseDecimal (s : String) : Option ℚ :=
  match s.split (fun c => c = '.') with
  | [w] => (w.toNat?).map (fun n => (n : ℚ))
  | [w, f] =>
      match w.toNat?, f.toNat? with
      | some wn, some fn => some ((wn : ℚ) + (fn : ℚ) / ((10 : ℚ) ^ f.length))
      | _, _ => none
  | _ => none

/-- Model of JS `parseFloat` on the form's price field; the field is a
required `type=number` input, so only well-formed decimals reach it. -/
def parseFloat (s : String) : ℚ := (parseDecimal s).getD 0

/-- The row handleSubmit inserts into `resources` (AddResource.tsx
lines 44-51): the form spread, with price parsed, owner stamped and
availability forced true. -/
structure ResourceInsert where
  title : String
  description : String
  category : String
  price : ℚ
  location : String
  image_url : String
  availability_start : String
  availability_end : String
  owner_id : String
  is_available : Bool
  deriving DecidableEq, Repr

/-- Outcome of a submit: a redirect to authentication, or an insert of
a resource row. -/
inductive SubmitResult where
  | redirectAuth : SubmitResult
  | insert (row : ResourceInsert) : SubmitResult
  deriving DecidableEq, Repr

/-- handleSubmit (AddResource.tsx lines 35-70). -/
def handleSubmit (user : Option User) (form : ResourceForm) : SubmitResult :=
  match user with
  | none => .redirectAuth
  | some u => .insert
      { title := form.title
        description := form.description
        category := form.category
        price := parseFloat form.price
        location := form.location
        image_url := form.image_url
        availability_start := form.availability_start
        availability_end := form.availability_end
        owner_id := u.id
        is_available := true }

end AddResource

namespace Dashboard

/-- The Dashboard component's in-memory state (part_000 lines
287-289): owned resources, bookings made as renter, booking requests
received as owner. -/
structure DashboardState where
  myResources : List ResourceRow
  myBookings : List Booking
  resourceBookings : List Booking
  deriving DecidableEq, Repr

/-- deleteResource (part_000 lines 366-388), success path: the local
list is updated by filtering out the deleted id; the booking lists are
untouched. -/
def deleteResource (s : DashboardState) (resourceId : String) : DashboardState :=
  { s with myResources := s.myResources.filter (fun r => ¬ (r.id = resourceId)) }

/-- updateBookingStatus (part_000 lines 390-417), success path: the
requests list is patched by id match; the other lists are untouched. -/
def updateBookingStatus (s : DashboardState) (bookingId status : String) :
    DashboardState :=
  { s with resourceBookings :=
      s.resourceBookings.map (fun booking =>
        if booking.id = bookingId then { booking with status := status } else booking) }

/-- Guard of the Accept/Reject buttons in the requests tab (part_000
line 538): they render only while the booking's status is pending. -/
def showsAcceptReject (booking : Booking) : Bool :=
  booking.status = "pending"

/-- The Accept button's onClick (part_000 line 542). -/
def acceptClick (s : DashboardState) (booking : Booking) : DashboardState :=
  updateBookingStatus s booking.id "confirmed"

/-- The Reject button's onClick (part_000 line 549). -/
def rejectClick (s : DashboardState) (booking : Booking) : DashboardState :=
  updateBookingStatus s booking.id "rejected"

/-- The status values the dashboard's update-booking-status mutation is
invoked with: "confirmed" by Accept (line 542) and "rejected" by
Reject (line 549). -/
def dashboardStatusWrites : List String := ["confirmed", "rejected"]

end Dashboard

/-- A concrete resource used by witnesses: price 10, owned by u1. -/
def sampleResource : ResourceRow :=
  { id := "r1", owner_id := "u1", title := "Drill", description := some "power drill",
    category := "Tools", price := 10, location := "Berlin", image_url := none,
    availability_start := 0, availability_end := 100, is_available := true, created_at := 5 }

/-- A concrete user distinct from sampleResource's owner. -/
def sampleRenter : User := { id := "u2" }

/-- The owner of sampleResource. -/
def sampleOwner : User := { id := "u1" }

/-- A concrete pending booking request against sampleResource. -/
def sampleBooking : Booking :=
  { id := "b1", start_time := 0, end_time := 90000000, total_price := 20,
    status := "pending", resource_id := "r1", resources := sampleResource }

/-- A concrete dashboard state used by witnesses. -/
def sampleState : Dashboard.DashboardState :=
  { myResources := [sampleResource], myBookings := [], resourceBookings := [sampleBooking] }

/-- C1: for a loaded resource with price p and both dates set, the computed
total equals max(1, ceil((end - start) / 86400000)) * p; a 25-hour span at
price 10 yields 20, and a zero or negative span yields p. -/
theorem calculateTotalPrice_formula :
    (∀ (r : ResourceRow) (s e : Int),
      BookResource.calculateTotalPrice (some r) (some s) (some e)
        = ((max 1 (ceilDiv (e - s) 86400000) : Int) : ℚ) * r.price)
    ∧ (∀ (r : ResourceRow) (s e : Int), r.price = 10 → e - s = 25 * 60 * 60 * 1000 →
        BookResource.calculateTotalPrice (some r) (some s) (some e) = 20)
    ∧ (∀ (r : ResourceRow) (s e : Int), e - s ≤ 0 →
        BookResource.calculateTotalPrice (some r) (some s) (some e) = r.price) := by
  have hgen : ∀ (r : ResourceRow) (s e : Int),
      BookResource.calculateTotalPrice (some r) (some s) (some e)
        = ((max 1 (ceilDiv (e - s) 86400000) : Int) : ℚ) * r.price := by
    intro r s e
    rfl
  refine ⟨hgen, ?_, ?_⟩
  · intro r s e hp hspan
    rw [hgen, hspan, hp]
    have h2 : ceilDiv (25 * 60 * 60 * 1000) 86400000 = 2 := by decide
    rw [h2]
    norm_num
  · intro r s e hspan
    rw [hgen]
    have hle : ceilDiv (e - s) 86400000 ≤ 0 := by
      have h0 : (0 : Int) ≤ -(e - s) := by omega
      have := Int.ediv_nonneg h0 (by norm_num : (0:Int) ≤ 86400000)
      unfold ceilDiv
      omega
    have hmax : max 1 (ceilDiv (e - s) 86400000) = 1 := by omega
    rw [hmax]
    norm_num

/-- Witness for C1 at price 10 with a 25-hour span and a negative span. -/
theorem calculateTotalPrice_formula_witness :
    (sampleResource.price = 10 ∧ (90000000 : Int) - 0 = 25 * 60 * 60 * 1000
      ∧ BookResource.calculateTotalPrice (some sampleResource) (some 0) (some 90000000) = 20)
    ∧ ((10 : Int) - 50 ≤ 0
      ∧ BookResource.calculateTotalPrice (some sampleResource) (some 50) (some 10)
          = sampleResource.price) := by
  refine ⟨⟨by norm_num [sampleResource], by norm_num, ?_⟩, by norm_num, ?_⟩
  · exact calculateTotalPrice_formula.2.1 sampleResource 0 90000000
      (by norm_num [sampleResource]) (by norm_num)
  · exact calculateTotalPrice_formula.2.2 sampleResource 50 10 (by norm_num)

/-- C10: whenever the start date, the end date or the loaded resource is
absent, calculateTotalPrice returns 0, not the one-day minimum charge. -/
theorem calculateTotalPrice_absent_zero :
    ∀ (resource : Option ResourceRow) (startDate endDate : Option Int),
      startDate = none ∨ endDate = none ∨ resource = none →
      BookResource.calculateTotalPrice resource startDate endDate = 0 := by
  intro resource startDate endDate h
  cases resource <;> cases startDate <;> cases endDate <;>
    simp_all [BookResource.calculateTotalPrice]

/-- Witness for C10 with the start date unset. -/
theorem calculateTotalPrice_absent_zero_witness :
    ((none : Option Int) = none ∨ (some 5 : Option Int) = none
        ∨ (some sampleResource : Option ResourceRow) = none)
    ∧ BookResource.calculateTotalPrice (some sampleResource) none (some 5) = 0 :=
  ⟨Or.inl rfl, calculateTotalPrice_absent_zero (some sampleResource) none (some 5) (Or.inl rfl)⟩

/-- C4: every booking row that handleBooking inserts has status pending,
regardless of the form inputs. -/
theorem booking_insert_status_pending :
    ∀ (user : Option User) (resource : Option ResourceRow) (startDate endDate : Option Int)
      (paymentMethod : String) (row : BookResource.BookingInsert),
      BookResource.handleBooking user resource startDate endDate paymentMethod = some row →
      row.status = "pending" := by
  intro user resource s e pm row h
  cases user <;> cases resource <;> simp [BookResource.handleBooking] at h
  rename_i u r
  by_cases hown : r.owner_id = u.id
  · simp [hown] at h
  · simp [hown] at h
    rw [← h]

/-- Witness for C4 at a concrete renter, resource and date range. -/
theorem booking_insert_status_pending_witness :
    (BookResource.handleBooking (some sampleRenter) (some sampleResource)
        (some 0) (some 90000000) "card")
      = some { resource_id := "r1", renter_id := "u2", owner_id := "u1",
               start_time := some 0, end_time := some 90000000,
               payment_method := "card", total_price := 20, status := "pending" }
    ∧ ({ resource_id := "r1", renter_id := "u2", owner_id := "u1",
         start_time := some 0, end_time := some 90000000,
         payment_method := "card", total_price := 20,
         status := "pending" } : BookResource.BookingInsert).status = "pending" := by
  have heq : BookResource.handleBooking (some sampleRenter) (some sampleResource)
      (some 0) (some 90000000) "card"
      = some { resource_id := "r1", renter_id := "u2", owner_id := "u1",
               start_time := some 0, end_time := some 90000000,
               payment_method := "card", total_price := 20, status := "pending" } := by
    simp [BookResource.handleBooking, sampleRenter, sampleResource,
      BookResource.calculateTotalPrice]
    norm_num [ceilDiv, BookResource.msPerDay]
  exact ⟨heq, booking_insert_status_pending (some sampleRenter) (some sampleResource)
    (some 0) (some 90000000) "card" _ heq⟩

/-- C5: when the current identity owns the loaded resource, handleBooking
issues no insert at all. -/
theorem owner_cannot_book_own_resource :
    ∀ (u : User) (r : ResourceRow) (startDate endDate : Option Int) (pm : String),
      r.owner_id = u.id →
      BookResource.handleBooking (some u) (some r) startDate endDate pm = none := by
  intro u r s e pm h
  simp [BookResource.handleBooking, h]

/-- Witness for C5: the owner of sampleResource attempts to book it. -/
theorem owner_cannot_book_own_resource_witness :
    sampleResource.owner_id = sampleOwner.id
    ∧ BookResource.handleBooking (some sampleOwner) (some sampleResource)
        (some 0) (some 90000000) "card" = none :=
  ⟨rfl, owner_cannot_book_own_resource sampleOwner sampleResource
    (some 0) (some 90000000) "card" rfl⟩

/-- C3: in the requests tab, Accept/Reject render exactly while the booking
status is pending; Accept sets the clicked booking's status to confirmed and
Reject sets it to rejected, after which the buttons are no longer offered for
that booking. -/
theorem requests_accept_reject_behavior :
    (∀ b : Booking, Dashboard.showsAcceptReject b = true ↔ b.status = "pending")
    ∧ (∀ (s : Dashboard.DashboardState) (bsel b : Booking),
        b ∈ (Dashboard.acceptClick s bsel).resourceBookings → b.id = bsel.id →
        b.status = "confirmed" ∧ Dashboard.showsAcceptReject b = false)
    ∧ (∀ (s : Dashboard.DashboardState) (bsel b : Booking),
        b ∈ (Dashboard.rejectClick s bsel).resourceBookings → b.id = bsel.id →
        b.status = "rejected" ∧ Dashboard.showsAcceptReject b = false) := by
  have hshow : ∀ b : Booking, Dashboard.showsAcceptReject b = true ↔ b.status = "pending" := by
    intro b
    simp [Dashboard.showsAcceptReject]
  have hupd : ∀ (s : Dashboard.DashboardState) (bid st : String) (b : Booking),
      b ∈ (Dashboard.updateBookingStatus s bid st).resourceBookings → b.id = bid →
      b.status = st := by
    intro s bid st b hmem hid
    simp [Dashboard.updateBookingStatus, List.mem_map] at hmem
    obtain ⟨a, ha, hfa⟩ := hmem
    by_cases hcase : a.id = bid
    · simp [hcase] at hfa
      rw [← hfa]
    · simp [hcase] at hfa
      rw [← hfa] at hid
      exact absurd hid hcase
  refine ⟨hshow, ?_, ?_⟩
  · intro s bsel b hmem hid
    have hst := hupd s bsel.id "confirmed" b hmem hid
    refine ⟨hst, ?_⟩
    simp [Dashboard.showsAcceptReject, hst]
  · intro s bsel b hmem hid
    have hst := hupd s bsel.id "rejected" b hmem hid
    refine ⟨hst, ?_⟩
    simp [Dashboard.showsAcceptReject, hst]

/-- Witness for C3: accepting the sample pending booking. -/
theorem requests_accept_reject_behavior_witness :
    ({ sampleBooking with status := "confirmed" } : Booking)
        ∈ (Dashboard.acceptClick sampleState sampleBooking).resourceBookings
    ∧ ({ sampleBooking with status := "confirmed" } : Booking).id = sampleBooking.id
    ∧ ({ sampleBooking with status := "confirmed" } : Booking).status = "confirmed"
    ∧ Dashboard.showsAcceptReject { sampleBooking with status := "confirmed" } = false := by
  have hmem : ({ sampleBooking with status := "confirmed" } : Booking)
      ∈ (Dashboard.acceptClick sampleState sampleBooking).resourceBookings := by
    simp [Dashboard.acceptClick, Dashboard.updateBookingStatus, sampleState]
  have h := requests_accept_reject_behavior.2.1 sampleState sampleBooking
    { sampleBooking with status := "confirmed" } hmem rfl
  exact ⟨hmem, rfl, h.1, h.2⟩

/-- C9: a successful delete-resource removes exactly the entry with the
deleted id from the owned-resources list and leaves both booking lists
untouched; a successful update-booking-status changes only the status field of
the id-matching bookings in the requests list and leaves every other booking
and the owned-resources list untouched. -/
theorem dashboard_mutations_frame :
    (∀ (s : Dashboard.DashboardState) (rid : String) (l1 l2 : List ResourceRow)
        (r0 : ResourceRow),
        s.myResources = l1 ++ r0 :: l2 → r0.id = rid →
        (∀ x ∈ l1, x.id ≠ rid) → (∀ x ∈ l2, x.id ≠ rid) →
        (Dashboard.deleteResource s rid).myResources = l1 ++ l2
        ∧ (Dashboard.deleteResource s rid).myBookings = s.myBookings
        ∧ (Dashboard.deleteResource s rid).resourceBookings = s.resourceBookings)
    ∧ (∀ (s : Dashboard.DashboardState) (bid st : String),
        (Dashboard.updateBookingStatus s bid st).myResources = s.myResources
        ∧ (Dashboard.updateBookingStatus s bid st).myBookings = s.myBookings
        ∧ (Dashboard.updateBookingStatus s bid st).resourceBookings.length
            = s.resourceBookings.length
        ∧ ∀ (i : Nat) (h1 : i < (Dashboard.updateBookingStatus s bid st).resourceBookings.length)
            (h2 : i < s.resourceBookings.length),
            (Dashboard.updateBookingStatus s bid st).resourceBookings.get ⟨i, h1⟩
              = if (s.resourceBookings.get ⟨i, h2⟩).id = bid
                then { s.resourceBookings.get ⟨i, h2⟩ with status := st }
                else s.resourceBookings.get ⟨i, h2⟩) := by
  constructor
  · intro s rid l1 l2 r0 hs hr0 hl1 hl2
    refine ⟨?_, rfl, rfl⟩
    show (s.myResources.filter (fun r => ¬ (r.id = rid)) : List ResourceRow) = l1 ++ l2
    rw [hs, List.filter_append, List.filter_cons]
    have hfalse : (decide ¬ (r0.id = rid)) = false := by simp [hr0]
    simp only [hfalse, Bool.false_eq_true, if_false]
    congr 1
    · exact List.filter_eq_self.mpr (fun a ha => by simp [hl1 a ha])
    · exact List.filter_eq_self.mpr (fun a ha => by simp [hl2 a ha])
  · intro s bid st
    refine ⟨rfl, rfl, by simp [Dashboard.updateBookingStatus], ?_⟩
    intro i h1 h2
    simp [Dashboard.updateBookingStatus, List.get_eq_getElem, List.getElem_map]

/-- Witness for C9 on a one-resource, one-request dashboard state. -/
theorem dashboard_mutations_frame_witness :
    sampleState.myResources = [] ++ sampleResource :: []
    ∧ sampleResource.id = "r1"
    ∧ (Dashboard.deleteResource sampleState "r1").myResources = ([] : List ResourceRow) ++ []
    ∧ (Dashboard.deleteResource sampleState "r1").myBookings = sampleState.myBookings
    ∧ (Dashboard.updateBookingStatus sampleState "b1" "confirmed").myResources
        = sampleState.myResources := by
  have h := dashboard_mutations_frame
  have hd := h.1 sampleState "r1" [] [] sampleResource (by simp [sampleState]) rfl
    (by simp) (by simp)
  exact ⟨by simp [sampleState], rfl, hd.1, hd.2.1, (h.2 sampleState "b1" "confirmed").1⟩

/-- C2 (refuting evaluation): the dashboard's Reject button invokes the
update-booking-status mutation with the status value rejected, which lies
outside the four states admitted by the schema CHECK constraint on
bookings.status; the local success-path state thus carries a status the schema
forbids. -/
theorem reject_writes_status_outside_schema :
    "rejected" ∈ Dashboard.dashboardStatusWrites
    ∧ "rejected" ∉ allowedBookingStatuses
    ∧ (Dashboard.rejectClick sampleState sampleBooking).resourceBookings
        = [{ sampleBooking with status := "rejected" }] := by
  refine ⟨by simp [Dashboard.dashboardStatusWrites], by simp [allowedBookingStatuses], ?_⟩
  simp [Dashboard.rejectClick, Dashboard.updateBookingStatus, sampleState]

/-- C6: a resource is in the filtered listing iff it is in the fetched set,
the case-folded search term is a substring of its case-folded title,
description or location, and either no category is selected or its category
equals the selected one exactly. -/
theorem filteredResources_mem_iff :
    ∀ (resources : List ResourceRow) (searchTerm selectedCategory : String) (r : ResourceRow),
      r ∈ Resources.filteredResources resources searchTerm selectedCategory ↔
        r ∈ resources
        ∧ (strIncludes r.title.toLower searchTerm.toLower = true
           ∨ (∃ d, r.description = some d ∧ strIncludes d.toLower searchTerm.toLower = true)
           ∨ strIncludes r.location.toLower searchTerm.toLower = true)
        ∧ (selectedCategory = "" ∨ r.category = selectedCategory) := by
  intro resources term cat r
  cases hd : r.description with
  | none =>
      simp [Resources.filteredResources, List.mem_filter, Resources.matchesSearch,
        Resources.matchesCategory, hd, decide_eq_true_iff, or_assoc]
  | some d =>
      simp [Resources.filteredResources, List.mem_filter, Resources.matchesSearch,
        Resources.matchesCategory, hd, decide_eq_true_iff, or_assoc]

/-- C7: the listing query returns exactly the resources whose availability
flag is true, ordered newest-first by creation time; no unavailable resource
appears. -/
theorem fetchResources_available_sorted :
    ∀ (db : List ResourceRow) (r : ResourceRow),
      (r ∈ Resources.fetchResources db ↔ r ∈ db ∧ r.is_available = true)
      ∧ List.Pairwise (fun a b => b.created_at ≤ a.created_at)
          (Resources.fetchResources db) := by
  intro db r
  constructor
  · rw [Resources.fetchResources, List.mem_mergeSort, List.mem_filter]
  · have h := @List.sorted_mergeSort ResourceRow
      (fun a b : ResourceRow => decide (b.created_at ≤ a.created_at))
      (fun a b c hab hbc => by
        simp only [decide_eq_true_iff] at *
        omega)
      (fun a b => by
        by_cases hc : b.created_at ≤ a.created_at <;> simp [hc]
        omega)
      (db.filter (fun r => r.is_available))
    exact h.imp (fun hh => by simpa using hh)

/-- C8: on resource-creation submit with no identity the result is a
redirect to authentication and no insert; with an identity the inserted row
carries the current identity as owner, availability true, and the decimal
parse of the price field. -/
theorem handleSubmit_spec :
    (∀ form : AddResource.ResourceForm,
        AddResource.handleSubmit none form = AddResource.SubmitResult.redirectAuth
        ∧ ∀ row, AddResource.handleSubmit none form ≠ AddResource.SubmitResult.insert row)
    ∧ (∀ (u : User) (form : AddResource.ResourceForm),
        ∃ row, AddResource.handleSubmit (some u) form = AddResource.SubmitResult.insert row
          ∧ row.owner_id = u.id ∧ row.is_available = true
          ∧ row.price = AddResource.parseFloat form.price) := by
  constructor
  · intro form
    exact ⟨rfl, by intro row h; simp [AddResource.handleSubmit] at h⟩
  · intro u form
    exact ⟨_, rfl, rfl, rfl, rfl⟩
